import Mathlib

set_option maxRecDepth 100000

/-!
Shallow embedding of the retrieval-and-response engine of the ITMO
admission-assistant chatbot (`src/app/itmo_chat_bot.py`, class
`ITMOAIChatbot`), together with theorems settling the specification
claims about it.

Modelling conventions:
* The sentence-transformer embedder composed with `faiss.normalize_L2`
  is an opaque external service; it is modelled as an abstract parameter
  `embedNorm : String → List ℚ` (rationals stand in for the float
  vectors; none of the claims depends on float rounding).
* `faiss.IndexFlatIP.search` (exhaustive exact inner-product top-k over
  the stored vectors, results in descending score order, `-1` padding
  when fewer than `k` vectors are stored) is modelled by sorting the
  scored corpus positions with a stable descending comparison and taking
  the first `k`; the `-1` padding plus the caller's `idx != -1` filter
  is modelled by the take simply returning fewer elements.
* The Claude client and the local fallback model are opaque external
  services: one call outcome of the primary model is a `PrimaryBehavior`
  value (a completion, or an exception), and the raw decoded text of the
  fallback model is a `String` parameter.
* Python `str.split()` word counting, `str.strip()`, slicing, substring
  `in`, and `dict.get(key, False)` are translated character-for-character
  below; `str.lower()` is modelled on the ASCII and basic-Cyrillic
  ranges, which covers every string the program compares against.
-/

/-- Knowledge-base entry: one JSON object of `knowledge_base.json`,
`\x7bid, text, program, type\x7d`.  Only `text` is ever read by the engine. -/
structure KnowledgeEntry where
  id : String
  text : String
  program : String
  type : String
deriving Repr, DecidableEq

instance : Inhabited KnowledgeEntry := ⟨⟨"", "", "", ""⟩⟩

/-- Inner product of two embedding vectors (`faiss.IndexFlatIP` metric). -/
def dot (a b : List ℚ) : ℚ := (List.zipWith (· * ·) a b).sum

/-- Comparison used to model FAISS exact top-k selection on scored corpus
positions `(position, score)`: higher score first, equal scores kept in
corpus-position order. -/
def searchOrder (a b : Nat × ℚ) : Prop :=
  b.2 < a.2 ∨ (a.2 = b.2 ∧ a.1 ≤ b.1)

instance : DecidableRel searchOrder := fun a b =>
  inferInstanceAs (Decidable (b.2 < a.2 ∨ (a.2 = b.2 ∧ a.1 ≤ b.1)))

instance : IsTotal (Nat × ℚ) searchOrder where
  total a b := by
    unfold searchOrder
    rcases lt_trichotomy a.2 b.2 with h | h | h
    · exact Or.inr (Or.inl h)
    · rcases Nat.le_total a.1 b.1 with h1 | h1
      · exact Or.inl (Or.inr ⟨h, h1⟩)
      · exact Or.inr (Or.inr ⟨h.symm, h1⟩)
    · exact Or.inl (Or.inl h)

instance : IsTrans (Nat × ℚ) searchOrder where
  trans a b c hab hbc := by
    unfold searchOrder at *
    rcases hab with h1 | ⟨h1, h1'⟩
    · rcases hbc with h2 | ⟨h2, _⟩
      · exact Or.inl (h2.trans h1)
      · exact Or.inl (h2 ▸ h1)
    · rcases hbc with h2 | ⟨h2, h2'⟩
      · exact Or.inl (h1 ▸ h2)
      · exact Or.inr ⟨h1.trans h2, h1'.trans h2'⟩

/-- Model of `faiss.IndexFlatIP.search` over the stored vectors `vecs`
with query vector `qv`: score every stored vector by inner product, order
by descending score (stable in corpus position) and keep the first `k`
`(position, score)` pairs. -/
def index_search (vecs : List (List ℚ)) (qv : List ℚ) (k : Nat) : List (Nat × ℚ) :=
  (List.insertionSort searchOrder ((vecs.map (fun v => dot qv v)).enum)).take k

/-- Embedding of `ITMOAIChatbot.create_faiss_index`: embed every
knowledge-base text and store the vectors in corpus order.  On an empty
corpus `embedder.encode([])` yields a one-dimensional empty array, and
both `faiss.normalize_L2(embeddings)` and `embeddings.shape[1]` raise
`IndexError`, so index construction fails and the engine never comes up;
the fallible step is modelled with `Except`. -/
def create_faiss_index (embedNorm : String → List ℚ)
    (knowledge_base : List KnowledgeEntry) : Except Unit (List (List ℚ)) :=
  let texts := knowledge_base.map (fun item => item.text)
  if texts.isEmpty then Except.error ()
  else Except.ok (texts.map embedNorm)

/-- Embedding of `ITMOAIChatbot.retrieve_relevant_info`: embed the query,
search the index built from the knowledge-base texts, drop the `-1`
padding and return the knowledge-base entries at the hit positions. -/
def retrieve_relevant_info (embedNorm : String → List ℚ)
    (knowledge_base : List KnowledgeEntry) (query : String) (k : Nat) :
    List KnowledgeEntry :=
  let qv := embedNorm query
  let hits := index_search (knowledge_base.map (fun e => embedNorm e.text)) qv k
  hits.filterMap (fun p => knowledge_base.get? p.1)

/-- Helper for `pySplit`: `acc` holds the (reversed) current word. -/
def pySplitAux : List Char → List Char → List String
  | [], acc => if acc.isEmpty then [] else [String.mk acc.reverse]
  | c :: cs, acc =>
    if c.isWhitespace then
      if acc.isEmpty then pySplitAux cs []
      else String.mk acc.reverse :: pySplitAux cs []
    else pySplitAux cs (c :: acc)

/-- Python `s.split()` with no arguments: maximal whitespace-free runs of
`s`, in order, with no empty pieces. -/
def pySplit (s : String) : List String := pySplitAux s.data []

/-- Python `len(s.split())`, the program's token-count approximation. -/
def wordCount (s : String) : Nat := (pySplit s).length

/-- Python `str.lower()` restricted to the character ranges the program
compares against: ASCII `A`-`Z` and Cyrillic `А`-`Я` / `Ё`. -/
def pyLowerChar (c : Char) : Char :=
  if c.toNat ≥ 65 ∧ c.toNat ≤ 90 then Char.ofNat (c.toNat + 32)
  else if c.toNat ≥ 0x410 ∧ c.toNat ≤ 0x42F then Char.ofNat (c.toNat + 0x20)
  else if c.toNat = 0x401 then Char.ofNat 0x451
  else c

/-- Python `str.lower()` on a whole string (restricted as `pyLowerChar`). -/
def pyLower (s : String) : String := String.mk (s.data.map pyLowerChar)

/-- Does `needle` match `haystack` at its head? -/
def matchesAt : List Char → List Char → Bool
  | [], _ => true
  | _ :: _, [] => false
  | c :: cs, d :: ds => c == d && matchesAt cs ds

/-- Python substring operator `needle in haystack` at the character level. -/
def subOccurs (needle : List Char) : List Char → Bool
  | [] => matchesAt needle []
  | c :: t => matchesAt needle (c :: t) || subOccurs needle t

/-- Python `needle in haystack` on strings. -/
def pyIn (needle haystack : String) : Bool :=
  subOccurs needle.data haystack.data

/-- Python `str.strip()`: drop leading and trailing whitespace. -/
def pyStrip (s : String) : String :=
  String.mk (((s.data.dropWhile Char.isWhitespace).reverse.dropWhile Char.isWhitespace).reverse)

/-- Embedding of `ITMOAIChatbot._use_fallback_model` from the decoded raw
model output on: if the prompt occurs in the output, cut `len(prompt)`
characters off the front and strip; then truncate to 1000 characters and
strip.  The LLaMA generation itself is the opaque `rawResponse`. -/
def use_fallback_model (rawResponse prompt : String) : String :=
  let response :=
    if pyIn prompt rawResponse then
      pyStrip (String.mk (rawResponse.data.drop prompt.data.length))
    else rawResponse
  pyStrip (String.mk (response.data.take 1000))

/-- Prompt template of `ITMOAIChatbot.generate_response` (the f-string with
`context_text` and `query` interpolated). -/
def buildPrompt (query : String) (context : List KnowledgeEntry) : String :=
  let context_text := String.intercalate "\n\n" (context.map (fun item => "- " ++ item.text))
  "Ты - помощник для абитуриентов ИТМО, помогающий выбрать между двумя магистерскими программами:\n1. \"Искусственный интеллект\" - для технических специалистов в ML\n2. \"Управление ИИ-продуктами/AI Product\" - для продакт-менеджеров в ИИ\n\nИспользуй следующую информацию для ответа:\n"
    ++ context_text
    ++ "\n\nВопрос абитуриента: "
    ++ query
    ++ "\n\nДай полезный и конкретный ответ на русском языке. Если нужно - порекомендуй программу исходя из интересов абитуриента."

/-- Engine state relevant to generation: whether a Claude client was
configured (`claude_api_key` given) and the token quota counters. -/
structure GenState where
  claude_configured : Bool
  used_tokens : Nat
  max_tokens_per_month : Nat
deriving Repr, DecidableEq

/-- Outcome of one attempted Claude API call, supplied by the environment:
either the completion text, or an exception of any kind. -/
inductive PrimaryBehavior where
  | success (completion : String)
  | failure
deriving Repr, DecidableEq

/-- Observable result of one `generate_response` call: the returned string,
the new `used_tokens` value, and which generators were invoked. -/
structure GenResult where
  output : String
  used_tokens : Nat
  primaryInvoked : Bool
  fallbackInvoked : Bool
deriving Repr, DecidableEq

/-- Embedding of `ITMOAIChatbot.generate_response`: build the grounding
prompt; if a Claude client is configured and the quota is not exhausted,
attempt the Claude call — on success count `len(prompt.split()) +
len(completion.split())` against the quota and return the completion
verbatim, on an exception fall back; otherwise go directly to the
fallback model. -/
def generate_response (st : GenState) (primary : PrimaryBehavior)
    (fallbackRaw : String) (query : String) (context : List KnowledgeEntry) :
    GenResult :=
  let prompt := buildPrompt query context
  if st.claude_configured ∧ st.used_tokens < st.max_tokens_per_month then
    match primary with
    | .success completion =>
      { output := completion
        used_tokens := st.used_tokens + (wordCount prompt + wordCount completion)
        primaryInvoked := true
        fallbackInvoked := false }
    | .failure =>
      { output := use_fallback_model fallbackRaw prompt
        used_tokens := st.used_tokens
        primaryInvoked := true
        fallbackInvoked := true }
  else
    { output := use_fallback_model fallbackRaw prompt
      used_tokens := st.used_tokens
      primaryInvoked := false
      fallbackInvoked := true }

/-- One environment event for a whole `generate_response` call: the primary
call outcome, the raw fallback text, the query and the retrieved context. -/
structure GenCall where
  primary : PrimaryBehavior
  fallbackRaw : String
  query : String
  context : List KnowledgeEntry

/-- State after a sequence of `generate_response` calls, threading
`used_tokens` through. -/
def run_generates (st : GenState) (calls : List GenCall) : GenState :=
  calls.foldl
    (fun s c =>
      { s with used_tokens := (generate_response s c.primary c.fallbackRaw c.query c.context).used_tokens })
    st

/-- Greeting token list of `ITMOAIChatbot.process_query`. -/
def greetings : List String :=
  ["привет", "здравствуй", "добрый день", "добрый вечер", "здравствуйте", "start", "/start"]

/-- Greeting test of `process_query`:
`any(greeting in query.lower() for greeting in greetings)` — note this is
Python substring containment, not set membership. -/
def isGreeting (query : String) : Bool :=
  greetings.any (fun greeting => pyIn greeting (pyLower query))

/-- Modelled from the spec: greeting detection read as "checks membership
against a fixed set of greeting/start tokens", i.e. the lowercased query
itself is an element of the token set.  Stated only to compare against the
code's `isGreeting`. -/
def isGreetingMembership (query : String) : Bool :=
  greetings.contains (pyLower query)

/-- Fixed onboarding message returned by `process_query` on a greeting. -/
def onboardingMessage : String :=
  "Здравствуйте! Я помощник по выбору магистерской программы в ИТМО. \n            \nМогу рассказать о двух программах:\n• \"Искусственный интеллект\" - для тех, кто хочет стать ML-инженером\n• \"Управление ИИ-продуктами\" - для будущих AI продакт-менеджеров\n\nО чем вы хотели бы узнать? Например:\n- Различия между программами\n- Стоимость и бюджетные места\n- Способы поступления\n- Карьерные перспективы\n- Требования к поступающим\n- Учебные дисциплины\n\nТакже могу дать персональную рекомендацию по выбору программы!"

/-- Fixed guidance message returned by `process_query` when retrieval
finds nothing. -/
def notFoundMessage : String :=
  "Извините, я не нашел информации по вашему запросу. Попробуйте спросить о программах, поступлении, карьерных перспективах, дисциплинах или стоимости обучения."

/-- Observable result of one `process_query` call: the returned string,
the new `used_tokens` value, and which engine components were invoked. -/
structure QueryResult where
  output : String
  used_tokens : Nat
  retrieverInvoked : Bool
  generatorInvoked : Bool
deriving Repr, DecidableEq

/-- Embedding of `ITMOAIChatbot.process_query`: greeting short-circuit,
then retrieval with `k = 5`, then the canned not-found message on an empty
result, otherwise `generate_response`. -/
def process_query (embedNorm : String → List ℚ)
    (knowledge_base : List KnowledgeEntry) (st : GenState)
    (primary : PrimaryBehavior) (fallbackRaw : String) (query : String) :
    QueryResult :=
  if isGreeting query then
    { output := onboardingMessage, used_tokens := st.used_tokens
      retrieverInvoked := false, generatorInvoked := false }
  else
    let relevant_info := retrieve_relevant_info embedNorm knowledge_base query 5
    if relevant_info.isEmpty then
      { output := notFoundMessage, used_tokens := st.used_tokens
        retrieverInvoked := true, generatorInvoked := false }
    else
      let r := generate_response st primary fallbackRaw query relevant_info
      { output := r.output, used_tokens := r.used_tokens
        retrieverInvoked := true, generatorInvoked := true }

/-- Python user-background dictionary restricted to boolean values, as the
recommendation flow builds it: an association list keyed by factor name. -/
abbrev UserBackground := List (String × Bool)

/-- Python `background.get(key, False)`: value of the first binding of
`key`, or `False` when the key is absent. -/
def dictGet (background : UserBackground) (key : String) : Bool :=
  match List.find? (fun p => p.1 == key) background with
  | some p => p.2
  | none => false

/-- Background dictionary holding all five factor keys, in the order the
recommendation flow asks them. -/
def profileDict (technical_skills management_interest programming_experience
    ml_knowledge product_experience : Bool) : UserBackground :=
  [("technical_skills", technical_skills),
   ("management_interest", management_interest),
   ("programming_experience", programming_experience),
   ("ml_knowledge", ml_knowledge),
   ("product_experience", product_experience)]

/-- Score for program "Искусственный интеллект" accumulated by
`ITMOAIChatbot.recommend_program`. -/
def ai_score (user_background : UserBackground) : Nat :=
  (if dictGet user_background "technical_skills" then 2 else 0)
    + (if dictGet user_background "programming_experience" then 2 else 0)
    + (if dictGet user_background "ml_knowledge" then 1 else 0)

/-- Score for program "Управление ИИ-продуктами" accumulated by
`ITMOAIChatbot.recommend_program`. -/
def ai_product_score (user_background : UserBackground) : Nat :=
  (if dictGet user_background "technical_skills" then 1 else 0)
    + (if dictGet user_background "management_interest" then 2 else 0)
    + (if dictGet user_background "programming_experience" then 1 else 0)
    + (if dictGet user_background "ml_knowledge" then 1 else 0)
    + (if dictGet user_background "product_experience" then 2 else 0)

/-- Canned recommendation text for program "Искусственный интеллект". -/
def aiRecommendationText : String :=
  "На основе вашего профиля я рекомендую программу **\"Искусственный интеллект\"**.\n\nПочему эта программа вам подходит:\n• У вас есть технические навыки и опыт программирования - это отличная база для углубления в ML\n• Программа позволит стать ML Engineer или Data Engineer уровня Middle за 2 года\n• Вы будете работать над реальными проектами компаний (X5, Ozon, МТС, Sber AI)\n• Возможность выбрать специализацию: ML Engineering, Data Engineering, AI Development\n• Зарплатные ожидания: 170-300 тыс. руб. для Middle-специалиста\n\nПрограмма включает глубокое изучение алгоритмов ML, работу с большими данными и развертывание моделей в продакшн.\n\nРекомендуемые дисциплины по выбору:\n- MLOps и инфраструктура ML\n- Компьютерное зрение или NLP (в зависимости от интересов)\n- Reinforcement Learning\n- Edge AI для работы с встраиваемыми системами"

/-- Canned recommendation text for program "Управление ИИ-продуктами". -/
def aiProductRecommendationText : String :=
  "На основе вашего профиля я рекомендую программу **\"Управление ИИ-продуктами/AI Product\"**.\n\nПочему эта программа вам подходит:\n• Вас интересует продуктовый менеджмент и у вас есть опыт работы с продуктами\n• Программа сочетает технические знания ИИ с навыками управления продуктами\n• Партнерство с Альфа-Банком дает доступ к реальным кейсам финтеха\n• Возможные роли: AI Product Manager, AI Project Manager, Product Data Analyst\n• Зарплатные ожидания: 150-400+ тыс. руб. через 1-3 года\n\nВы научитесь создавать ИИ-решения и выводить их на рынок, понимая как техническую, так и бизнес-сторону.\n\nРекомендуемые дисциплины по выбору:\n- Growth Hacking для AI-продуктов\n- Монетизация AI-решений\n- Agile и Scrum для AI-проектов\n- Digital Marketing с использованием ML"

/-- Canned recommendation text for the tied case. -/
def tieRecommendationText : String :=
  "Обе программы могут вам подойти! Давайте определимся точнее:\n\n**\"Искусственный интеллект\"** выбирайте, если:\n• Хотите глубоко погрузиться в технические аспекты ML\n• Готовы много программировать и работать с алгоритмами\n• Интересуетесь исследованиями и научными публикациями\n• Хотите стать ML Engineer или Data Engineer\n\n**\"Управление ИИ-продуктами\"** выбирайте, если:\n• Хотите управлять разработкой ИИ-продуктов\n• Интересует работа на стыке технологий и бизнеса\n• Важно понимать и техническую, и продуктовую стороны\n• Хотите стать AI Product Manager\n\nРекомендую пройти пробные курсы обеих программ или поговорить с выпускниками для окончательного выбора!"

/-- Embedding of `ITMOAIChatbot.recommend_program`: compare the two scores
with strict inequalities and return the matching canned text. -/
def recommend_program (user_background : UserBackground) : String :=
  if ai_score user_background > ai_product_score user_background then
    aiRecommendationText
  else if ai_product_score user_background > ai_score user_background then
    aiProductRecommendationText
  else
    tieRecommendationText

/-- Embedding of `ITMOAIChatbot.get_disciplines_recommendation`: the `'ai'`
branch selects AI-program elective blocks keyed by profile flags; every
other `program` value takes the `else` (`ai_product`) branch. -/
def get_disciplines_recommendation (program : String)
    (background : UserBackground) : String :=
  if program == "ai" then
    let recommendations := "**Рекомендуемые дисциплины по выбору для программы \x27Искусственный интеллект\x27:**\n\n"
    let recommendations := recommendations ++
      (if dictGet background "programming_experience" then
        "• **MLOps** - для развертывания моделей в продакшн\n"
          ++ "• **Распределенные вычисления** - для работы с большими данными\n"
      else "")
    let recommendations := recommendations ++
      (if dictGet background "ml_knowledge" then
        "• **Reinforcement Learning** - передовое направление в ML\n"
          ++ "• **Explainable AI** - для создания интерпретируемых моделей\n"
      else "")
    let recommendations := recommendations ++
      (if !dictGet background "technical_skills" then
        "• **Математические основы ИИ** - усиленный курс математики\n"
          ++ "• **Python для Data Science** - углубленное программирование\n"
      else "")
    recommendations
      ++ "\n**Специализации по интересам:**\n"
      ++ "• Computer Vision - если интересует работа с изображениями\n"
      ++ "• NLP - если интересует работа с текстом\n"
      ++ "• Биоинформатика - если есть интерес к медицине\n"
      ++ "• Робототехника - для работы с автономными системами\n"
  else
    let recommendations := "**Рекомендуемые дисциплины по выбору для программы \x27Управление ИИ-продуктами\x27:**\n\n"
    let recommendations := recommendations ++
      (if dictGet background "product_experience" then
        "• **Growth Hacking** - для масштабирования AI-продуктов\n"
          ++ "• **Монетизация AI** - стратегии заработка на ML\n"
      else "")
    let recommendations := recommendations ++
      (if !dictGet background "ml_knowledge" then
        "• **Основы машинного обучения** - базовый технический курс\n"
          ++ "• **Анализ данных для PM** - работа с метриками\n"
      else "")
    let recommendations := recommendations ++
      (if dictGet background "management_interest" then
        "• **Agile для AI** - управление AI-проектами\n"
          ++ "• **Венчурные инвестиции** - для запуска стартапов\n"
      else "")
    recommendations
      ++ "\n**Дополнительные навыки:**\n"
      ++ "• UX для AI - проектирование AI-интерфейсов\n"
      ++ "• Digital Marketing - продвижение AI-решений\n"
      ++ "• Legal Tech - правовые аспекты AI\n"
      ++ "• Поведенческая экономика - понимание пользователей\n"

/-- The list of hits returned by `index_search` has `min k n` elements. -/
lemma index_search_length (vecs : List (List ℚ)) (qv : List ℚ) (k : Nat) :
    (index_search vecs qv k).length = min k vecs.length := by
  unfold index_search
  rw [List.length_take, (List.perm_insertionSort searchOrder _).length_eq]
  simp

/-- The hits of `index_search` are strictly ordered: descending score, and
ascending corpus position among equal scores. -/
lemma index_search_sorted (vecs : List (List ℚ)) (qv : List ℚ) (k : Nat) :
    (index_search vecs qv k).Pairwise
      (fun a b => b.2 < a.2 ∨ (a.2 = b.2 ∧ a.1 < b.1)) := by
  have hperm := List.perm_insertionSort searchOrder ((vecs.map (fun v => dot qv v)).enum)
  have hsorted : (List.insertionSort searchOrder ((vecs.map (fun v => dot qv v)).enum)).Pairwise searchOrder :=
    List.sorted_insertionSort searchOrder _
  have hsub := List.take_sublist k (List.insertionSort searchOrder ((vecs.map (fun v => dot qv v)).enum))
  have hnd : ((List.insertionSort searchOrder ((vecs.map (fun v => dot qv v)).enum)).map Prod.fst).Nodup :=
    ((hperm.map Prod.fst).nodup_iff).mpr (List.nodup_enum_map_fst _)
  have hnd2 : ((index_search vecs qv k).map Prod.fst).Nodup :=
    hnd.sublist (hsub.map Prod.fst)
  have hne : (index_search vecs qv k).Pairwise (fun a b => a.1 ≠ b.1) :=
    (List.pairwise_map).mp hnd2
  have hpw : (index_search vecs qv k).Pairwise searchOrder := hsorted.sublist hsub
  refine (hpw.and hne).imp ?_
  rintro a b ⟨hso | ⟨heq, hle⟩, hnefst⟩
  · exact Or.inl hso
  · exact Or.inr ⟨heq, lt_of_le_of_ne hle hnefst⟩

/-- Every hit of `index_search` is a valid corpus position paired with the
inner product of the query vector against the stored vector there. -/
lemma index_search_mem (vecs : List (List ℚ)) (qv : List ℚ) (k : Nat) :
    ∀ p ∈ index_search vecs qv k,
      p.1 < vecs.length ∧ p.2 = dot qv (vecs.getD p.1 []) := by
  intro p hp
  have hperm := List.perm_insertionSort searchOrder ((vecs.map (fun v => dot qv v)).enum)
  have hp2 : p ∈ (vecs.map (fun v => dot qv v)).enum :=
    hperm.mem_iff.mp ((List.take_sublist k _).subset hp)
  have hp3 : (vecs.map (fun v => dot qv v))[p.1]? = some p.2 :=
    List.mem_enum_iff_getElem?.mp hp2
  rw [List.getElem?_map] at hp3
  cases hv : vecs[p.1]? with
  | none => rw [hv] at hp3; simp at hp3
  | some v =>
    rw [hv] at hp3
    simp only [Option.map_some'] at hp3
    obtain ⟨hlt, hval⟩ := List.getElem?_eq_some.mp hv
    refine ⟨hlt, ?_⟩
    have hd : vecs.getD p.1 [] = v := by
      rw [List.getD_eq_getElem?_getD, hv]; rfl
    rw [hd, ← Option.some_inj.mp hp3]

/-- Over a hit list with in-bounds positions, looking entries up with
`get?` is plain indexing. -/
lemma filterMap_get?_eq_map (kb : List KnowledgeEntry) :
    ∀ l : List (Nat × ℚ), (∀ p ∈ l, p.1 < kb.length) →
      l.filterMap (fun p => kb.get? p.1) = l.map (fun p => kb.getD p.1 default)
  | [], _ => rfl
  | p :: t, h => by
    have hp : p.1 < kb.length := h p (List.mem_cons_self _ _)
    have hsome : kb.get? p.1 = some (kb.getD p.1 default) := by
      rw [List.get?_eq_getElem?, List.getD_eq_getElem?_getD, List.getElem?_eq_getElem hp]
      rfl
    rw [List.filterMap_cons, List.map_cons, hsome,
      filterMap_get?_eq_map kb t (fun q hq => h q (List.mem_cons_of_mem _ hq))]

/-- Entry lookup through the vector list built from the corpus. -/
lemma getD_vecs (embedNorm : String → List ℚ) (kb : List KnowledgeEntry)
    (i : Nat) (h : i < kb.length) :
    (kb.map (fun e => embedNorm e.text)).getD i []
      = embedNorm (kb.getD i default).text := by
  rw [List.getD_eq_getElem?_getD, List.getD_eq_getElem?_getD, List.getElem?_map,
    List.getElem?_eq_getElem h]
  rfl

/-- C1: for every query and every k, `retrieve_relevant_info` returns
exactly `min k n` knowledge-base entries (all of them when the corpus
holds fewer than `k`), and the underlying hit list is ordered by strictly
descending inner-product score with ties broken by ascending original
corpus position; the returned entries are exactly the corpus entries at
the hit positions, in hit order. -/
theorem C1_search_top_k (embedNorm : String → List ℚ)
    (knowledge_base : List KnowledgeEntry) (query : String) (k : Nat) :
    (retrieve_relevant_info embedNorm knowledge_base query k).length
        = min k knowledge_base.length
    ∧ List.Pairwise (fun a b : Nat × ℚ => b.2 < a.2 ∨ (a.2 = b.2 ∧ a.1 < b.1))
        (index_search (knowledge_base.map (fun e => embedNorm e.text)) (embedNorm query) k)
    ∧ (∀ p ∈ index_search (knowledge_base.map (fun e => embedNorm e.text)) (embedNorm query) k,
        p.1 < knowledge_base.length
        ∧ p.2 = dot (embedNorm query) (embedNorm (knowledge_base.getD p.1 default).text))
    ∧ retrieve_relevant_info embedNorm knowledge_base query k
        = (index_search (knowledge_base.map (fun e => embedNorm e.text)) (embedNorm query) k).map
            (fun p => knowledge_base.getD p.1 default) := by
  have hbound : ∀ p ∈ index_search (knowledge_base.map (fun e => embedNorm e.text)) (embedNorm query) k,
      p.1 < knowledge_base.length := by
    intro p hp
    have := (index_search_mem _ _ k p hp).1
    simpa using this
  have hmap : retrieve_relevant_info embedNorm knowledge_base query k
      = (index_search (knowledge_base.map (fun e => embedNorm e.text)) (embedNorm query) k).map
          (fun p => knowledge_base.getD p.1 default) :=
    filterMap_get?_eq_map knowledge_base _ hbound
  refine ⟨?_, index_search_sorted _ _ k, ?_, hmap⟩
  · rw [hmap, List.length_map, index_search_length]
    simp
  · intro p hp
    obtain ⟨h1, h2⟩ := index_search_mem _ _ k p hp
    have h1' : p.1 < knowledge_base.length := by simpa using h1
    refine ⟨h1', ?_⟩
    rw [h2, getD_vecs embedNorm knowledge_base p.1 h1']

/-- Witness for C1 on a concrete two-entry corpus: both entries with equal
scores come back in corpus order, with correct length, and the
score/position facts hold at the first hit. -/
theorem C1_search_top_k_witness :
    (retrieve_relevant_info (fun _ => []) [⟨"1", "a", "ai", "t"⟩, ⟨"2", "b", "ai", "t"⟩] "q" 5).length = min 5 2
    ∧ ((0, (0 : ℚ)).1 < 2
        ∧ (0, (0 : ℚ)).2 = dot ((fun (_ : String) => ([] : List ℚ)) "q")
            ((fun (_ : String) => ([] : List ℚ))
              (([⟨"1", "a", "ai", "t"⟩, ⟨"2", "b", "ai", "t"⟩] : List KnowledgeEntry).getD (0, (0 : ℚ)).1 default).text)) := by
  refine ⟨(C1_search_top_k (fun _ => []) [⟨"1", "a", "ai", "t"⟩, ⟨"2", "b", "ai", "t"⟩] "q" 5).1, ?_⟩
  have h := (C1_search_top_k (fun _ => []) [⟨"1", "a", "ai", "t"⟩, ⟨"2", "b", "ai", "t"⟩] "q" 5).2.2.1
  exact h (0, (0 : ℚ)) (by decide)

/-- The three canned recommendation texts are pairwise distinct. -/
lemma recommendation_texts_distinct :
    aiRecommendationText ≠ aiProductRecommendationText
    ∧ aiRecommendationText ≠ tieRecommendationText
    ∧ aiProductRecommendationText ≠ tieRecommendationText := by
  refine ⟨?_, ?_, ?_⟩ <;> decide

/-- Branch classification of `recommend_program` by score comparison. -/
lemma recommend_program_cases (bg : UserBackground) :
    (ai_product_score bg < ai_score bg → recommend_program bg = aiRecommendationText)
    ∧ (ai_score bg < ai_product_score bg → recommend_program bg = aiProductRecommendationText)
    ∧ (ai_score bg = ai_product_score bg → recommend_program bg = tieRecommendationText) := by
  unfold recommend_program
  refine ⟨fun h => ?_, fun h => ?_, fun h => ?_⟩
  · rw [if_pos h]
  · rw [if_neg (by omega), if_pos h]
  · rw [if_neg (by omega), if_neg (by omega)]

/-- C2: `recommend_program` scores any total five-boolean profile by the
fixed weight table (technical_skills +2/+1, management_interest 0/+2,
programming_experience +2/+1, ml_knowledge +1/+1, product_experience
0/+2), returns the program-A text exactly when scoreA > scoreB, the
program-B text exactly when scoreB > scoreA, and the tie text exactly on
equality; the profile (T,F,T,F,F) scores 4 against 2 and gets text A, and
the all-false profile scores 0 against 0 and gets the tie text. -/
theorem C2_recommend_scoring (ts mi pe ml pr : Bool) :
    ai_score (profileDict ts mi pe ml pr)
        = (if ts then 2 else 0) + (if pe then 2 else 0) + (if ml then 1 else 0)
    ∧ ai_product_score (profileDict ts mi pe ml pr)
        = (if ts then 1 else 0) + (if mi then 2 else 0) + (if pe then 1 else 0)
            + (if ml then 1 else 0) + (if pr then 2 else 0)
    ∧ (recommend_program (profileDict ts mi pe ml pr) = aiRecommendationText
        ↔ ai_product_score (profileDict ts mi pe ml pr) < ai_score (profileDict ts mi pe ml pr))
    ∧ (recommend_program (profileDict ts mi pe ml pr) = aiProductRecommendationText
        ↔ ai_score (profileDict ts mi pe ml pr) < ai_product_score (profileDict ts mi pe ml pr))
    ∧ (recommend_program (profileDict ts mi pe ml pr) = tieRecommendationText
        ↔ ai_score (profileDict ts mi pe ml pr) = ai_product_score (profileDict ts mi pe ml pr))
    ∧ ai_score (profileDict true false true false false) = 4
    ∧ ai_product_score (profileDict true false true false false) = 2
    ∧ recommend_program (profileDict true false true false false) = aiRecommendationText
    ∧ ai_score (profileDict false false false false false) = 0
    ∧ ai_product_score (profileDict false false false false false) = 0
    ∧ recommend_program (profileDict false false false false false) = tieRecommendationText := by
  obtain ⟨hab, hat, hbt⟩ := recommendation_texts_distinct
  obtain ⟨cA, cB, cT⟩ := recommend_program_cases (profileDict ts mi pe ml pr)
  have iffA : recommend_program (profileDict ts mi pe ml pr) = aiRecommendationText
      ↔ ai_product_score (profileDict ts mi pe ml pr) < ai_score (profileDict ts mi pe ml pr) := by
    constructor
    · intro h
      rcases Nat.lt_trichotomy (ai_product_score (profileDict ts mi pe ml pr))
        (ai_score (profileDict ts mi pe ml pr)) with h1 | h1 | h1
      · exact h1
      · exact absurd (h.symm.trans (cT h1.symm)) hat
      · exact absurd (h.symm.trans (cB h1)) hab
    · exact cA
  have iffB : recommend_program (profileDict ts mi pe ml pr) = aiProductRecommendationText
      ↔ ai_score (profileDict ts mi pe ml pr) < ai_product_score (profileDict ts mi pe ml pr) := by
    constructor
    · intro h
      rcases Nat.lt_trichotomy (ai_score (profileDict ts mi pe ml pr))
        (ai_product_score (profileDict ts mi pe ml pr)) with h1 | h1 | h1
      · exact h1
      · exact absurd (h.symm.trans (cT h1)) hbt
      · exact absurd (h.symm.trans (cA h1)) hab.symm
    · exact cB
  have iffT : recommend_program (profileDict ts mi pe ml pr) = tieRecommendationText
      ↔ ai_score (profileDict ts mi pe ml pr) = ai_product_score (profileDict ts mi pe ml pr) := by
    constructor
    · intro h
      rcases Nat.lt_trichotomy (ai_score (profileDict ts mi pe ml pr))
        (ai_product_score (profileDict ts mi pe ml pr)) with h1 | h1 | h1
      · exact absurd (h.symm.trans (cB h1)) hbt.symm
      · exact h1
      · exact absurd (h.symm.trans (cA h1)) hat.symm
    · exact cT
  refine ⟨rfl, rfl, iffA, iffB, iffT, by decide, by decide, ?_, by decide, by decide, ?_⟩
  · exact (recommend_program_cases (profileDict true false true false false)).1 (by decide)
  · exact (recommend_program_cases (profileDict false false false false false)).2.2 (by decide)

/-- C3: when the quota is exhausted (or no Claude client is configured),
`generate_response` never invokes the primary model: it goes directly to
the fallback generator, whatever the primary call would have done. -/
theorem C3_quota_gate (st : GenState) (primary : PrimaryBehavior)
    (fallbackRaw query : String) (context : List KnowledgeEntry)
    (h : st.max_tokens_per_month ≤ st.used_tokens ∨ st.claude_configured = false) :
    (generate_response st primary fallbackRaw query context).primaryInvoked = false
    ∧ (generate_response st primary fallbackRaw query context).fallbackInvoked = true
    ∧ (generate_response st primary fallbackRaw query context).output
        = use_fallback_model fallbackRaw (buildPrompt query context) := by
  have hcond : ¬(st.claude_configured = true ∧ st.used_tokens < st.max_tokens_per_month) := by
    rintro ⟨h1, h2⟩
    rcases h with h | h
    · omega
    · rw [h1] at h; cases h
  unfold generate_response
  rw [if_neg hcond]
  exact ⟨rfl, rfl, rfl⟩

/-- Witness for C3: with the quota exactly exhausted, a call whose primary
would have succeeded still reports the primary as not invoked. -/
theorem C3_quota_gate_witness :
    (generate_response ⟨true, 7, 7⟩ (.success "ответ") "raw" "вопрос" []).primaryInvoked = false
    ∧ (generate_response ⟨true, 7, 7⟩ (.success "ответ") "raw" "вопрос" []).fallbackInvoked = true :=
  ⟨(C3_quota_gate ⟨true, 7, 7⟩ (.success "ответ") "raw" "вопрос" [] (Or.inl (by decide))).1,
   (C3_quota_gate ⟨true, 7, 7⟩ (.success "ответ") "raw" "вопрос" [] (Or.inl (by decide))).2.1⟩

/-- C4: `used_tokens` never decreases across `generate_response` calls; it
changes only on a successful primary call, where it grows by exactly the
word count of the prompt plus the word count of the completion; any
fallback-path call leaves it unchanged; and over any sequence of calls it
is non-decreasing. -/
theorem C4_quota_monotone (st : GenState) (primary : PrimaryBehavior)
    (fallbackRaw query : String) (context : List KnowledgeEntry) :
    st.used_tokens ≤ (generate_response st primary fallbackRaw query context).used_tokens
    ∧ ((generate_response st primary fallbackRaw query context).fallbackInvoked = true →
        (generate_response st primary fallbackRaw query context).used_tokens = st.used_tokens)
    ∧ (∀ completion, primary = .success completion →
        (generate_response st primary fallbackRaw query context).primaryInvoked = true →
        (generate_response st primary fallbackRaw query context).used_tokens
          = st.used_tokens + (wordCount (buildPrompt query context) + wordCount completion))
    ∧ ((generate_response st primary fallbackRaw query context).used_tokens ≠ st.used_tokens →
        (generate_response st primary fallbackRaw query context).primaryInvoked = true
        ∧ (generate_response st primary fallbackRaw query context).fallbackInvoked = false
        ∧ ∃ completion, primary = .success completion)
    ∧ (∀ calls : List GenCall, st.used_tokens ≤ (run_generates st calls).used_tokens) := by
  have step : ∀ (s : GenState) (p : PrimaryBehavior) (f q : String) (c : List KnowledgeEntry),
      s.used_tokens ≤ (generate_response s p f q c).used_tokens := by
    intro s p f q c
    unfold generate_response
    by_cases hcond : (s.claude_configured = true ∧ s.used_tokens < s.max_tokens_per_month)
    · rw [if_pos hcond]; cases p <;> simp
    · rw [if_neg hcond]
  have seqmono : ∀ (calls : List GenCall) (s : GenState),
      s.used_tokens ≤ (run_generates s calls).used_tokens := by
    intro calls
    induction calls with
    | nil => intro s; exact Nat.le_refl _
    | cons c t ih =>
      intro s
      exact Nat.le_trans (step s c.primary c.fallbackRaw c.query c.context)
        (ih { s with used_tokens :=
          (generate_response s c.primary c.fallbackRaw c.query c.context).used_tokens })
  refine ⟨step st primary fallbackRaw query context, ?_, ?_, ?_, fun calls => seqmono calls st⟩
  · intro hfb
    unfold generate_response at hfb ⊢
    by_cases hcond : (st.claude_configured = true ∧ st.used_tokens < st.max_tokens_per_month)
    · rw [if_pos hcond] at hfb ⊢
      cases primary with
      | success completion => simp at hfb
      | failure => rfl
    · rw [if_neg hcond]
  · intro completion hc hpi
    subst hc
    unfold generate_response at hpi ⊢
    by_cases hcond : (st.claude_configured = true ∧ st.used_tokens < st.max_tokens_per_month)
    · rw [if_pos hcond]
    · rw [if_neg hcond] at hpi
      simp at hpi
  · intro hch
    unfold generate_response at hch ⊢
    by_cases hcond : (st.claude_configured = true ∧ st.used_tokens < st.max_tokens_per_month)
    · rw [if_pos hcond] at hch ⊢
      cases primary with
      | success completion => exact ⟨rfl, rfl, completion, rfl⟩
      | failure => simp at hch
    · rw [if_neg hcond] at hch
      simp at hch

/-- Witness for C4: a successful primary call charges prompt words plus
completion words, and a gated call leaves the counter unchanged. -/
theorem C4_quota_monotone_witness :
    (generate_response ⟨true, 0, 100⟩ (.success "короткий ответ") "raw" "вопрос" []).used_tokens
      = 0 + (wordCount (buildPrompt "вопрос" []) + wordCount "короткий ответ")
    ∧ ((generate_response ⟨true, 100, 100⟩ (.success "короткий ответ") "raw" "вопрос" []).fallbackInvoked = true →
      (generate_response ⟨true, 100, 100⟩ (.success "короткий ответ") "raw" "вопрос" []).used_tokens = 100) :=
  ⟨(C4_quota_monotone ⟨true, 0, 100⟩ (.success "короткий ответ") "raw" "вопрос" []).2.2.1
      "короткий ответ" rfl (by decide),
   fun h =>
    (C4_quota_monotone ⟨true, 100, 100⟩ (.success "короткий ответ") "raw" "вопрос" []).2.1 h⟩

/-- C6: if the primary-model call raises, `generate_response` returns the
fallback generator's processed output — the error is absorbed, never
propagated (the function is total and still reports a fallback result). -/
theorem C6_primary_error_fallback (st : GenState) (primary : PrimaryBehavior)
    (fallbackRaw query : String) (context : List KnowledgeEntry)
    (h : primary = .failure) :
    (generate_response st primary fallbackRaw query context).output
        = use_fallback_model fallbackRaw (buildPrompt query context)
    ∧ (generate_response st primary fallbackRaw query context).fallbackInvoked = true := by
  subst h
  unfold generate_response
  by_cases hcond : (st.claude_configured = true ∧ st.used_tokens < st.max_tokens_per_month)
  · rw [if_pos hcond]; exact ⟨rfl, rfl⟩
  · rw [if_neg hcond]; exact ⟨rfl, rfl⟩

/-- Witness for C6: an in-quota call whose primary raises returns the
fallback output. -/
theorem C6_primary_error_fallback_witness :
    (generate_response ⟨true, 0, 100⟩ .failure "сырой ответ модели" "вопрос" []).output
        = use_fallback_model "сырой ответ модели" (buildPrompt "вопрос" [])
    ∧ (generate_response ⟨true, 0, 100⟩ .failure "сырой ответ модели" "вопрос" []).fallbackInvoked = true :=
  C6_primary_error_fallback ⟨true, 0, 100⟩ .failure "сырой ответ модели" "вопрос" [] rfl

/-- C5 counterexample: the greeting check is substring containment, not
membership — the query "restart" is not one of the greeting tokens, yet
`process_query` returns the onboarding message for it because the token
"start" occurs inside it. -/
theorem C5_counterexample :
    (process_query (fun _ => []) [] ⟨false, 0, 0⟩ .failure "" "restart").output
        = onboardingMessage
    ∧ isGreetingMembership "restart" = false := by
  refine ⟨?_, by decide⟩
  decide

/-- C5 (amended): `process_query` lowercases the query and returns the
fixed onboarding message — invoking neither the retriever nor the
generator — exactly when some greeting/start token occurs as a substring
of the lowercased query; any other query proceeds to retrieval.  In
particular "привет" gets the onboarding text. -/
theorem C5_greeting_shortcircuit (embedNorm : String → List ℚ)
    (knowledge_base : List KnowledgeEntry) (st : GenState)
    (primary : PrimaryBehavior) (fallbackRaw query : String) :
    (isGreeting query = true →
      process_query embedNorm knowledge_base st primary fallbackRaw query
        = ⟨onboardingMessage, st.used_tokens, false, false⟩)
    ∧ (isGreeting query = false →
      (process_query embedNorm knowledge_base st primary fallbackRaw query).retrieverInvoked = true)
    ∧ isGreeting query = greetings.any (fun greeting => pyIn greeting (pyLower query)) := by
  refine ⟨?_, ?_, rfl⟩
  · intro h
    unfold process_query
    rw [if_pos h]
  · intro h
    unfold process_query
    rw [if_neg (by rw [h]; exact Bool.false_ne_true)]
    by_cases he : (retrieve_relevant_info embedNorm knowledge_base query 5).isEmpty
    · rw [if_pos he]
    · rw [if_neg he]

/-- Witness for C5: "привет" is a greeting and returns the onboarding
message with neither component invoked. -/
theorem C5_greeting_shortcircuit_witness :
    process_query (fun _ => []) [] ⟨false, 0, 0⟩ .failure "" "привет"
      = ⟨onboardingMessage, 0, false, false⟩ :=
  (C5_greeting_shortcircuit (fun _ => []) [] ⟨false, 0, 0⟩ .failure "" "привет").1 (by decide)

/-- C7: the claim's empty-corpus behaviour is not what the code does —
with an empty knowledge base `create_faiss_index` raises `IndexError`
while building the index, so `retrieve_relevant_info` can never run
there and the not-found guidance is never produced; a one-entry corpus
by contrast builds fine. -/
theorem C7_empty_corpus_bug :
    create_faiss_index (fun _ => []) ([] : List KnowledgeEntry) = Except.error ()
    ∧ create_faiss_index (fun _ => []) [⟨"1", "информация о программе", "ai", "info"⟩]
        = Except.ok [[]] :=
  ⟨rfl, rfl⟩

/-- C8 counterexample: `process_query` does not guarantee a non-empty
answer — when the primary model succeeds with an empty completion, the
empty string is returned verbatim. -/
theorem C8_counterexample :
    (process_query (fun _ => []) [⟨"1", "информация о программе", "ai", "info"⟩]
        ⟨true, 0, 100000⟩ (.success "") "" "вопрос").output = "" := by
  decide

/-- C8 (amended): `process_query` returns a non-empty string on the
greeting and not-found paths; on the generation path it returns the
generator's output verbatim — in particular the primary completion itself
whenever the primary model is used and succeeds — so the answer is
non-empty exactly when that generator output is. -/
theorem C8_nonempty_amended (embedNorm : String → List ℚ)
    (knowledge_base : List KnowledgeEntry) (st : GenState)
    (primary : PrimaryBehavior) (fallbackRaw query : String) :
    ((process_query embedNorm knowledge_base st primary fallbackRaw query).generatorInvoked = false →
      (process_query embedNorm knowledge_base st primary fallbackRaw query).output ≠ "")
    ∧ ((process_query embedNorm knowledge_base st primary fallbackRaw query).generatorInvoked = true →
      (process_query embedNorm knowledge_base st primary fallbackRaw query).output
        = (generate_response st primary fallbackRaw query
            (retrieve_relevant_info embedNorm knowledge_base query 5)).output)
    ∧ (∀ completion, primary = .success completion →
        st.claude_configured = true → st.used_tokens < st.max_tokens_per_month →
        (process_query embedNorm knowledge_base st primary fallbackRaw query).generatorInvoked = true →
        (process_query embedNorm knowledge_base st primary fallbackRaw query).output = completion) := by
  have honb : onboardingMessage ≠ "" := by decide
  have hnf : notFoundMessage ≠ "" := by decide
  cases hg : isGreeting query with
  | true =>
    refine ⟨fun _ => ?_, fun hgen => ?_, fun completion hc _ _ hgen => ?_⟩
    · simpa [process_query, hg] using honb
    · rw [process_query, if_pos hg] at hgen; cases hgen
    · rw [process_query, if_pos hg] at hgen; cases hgen
  | false =>
    cases he : (retrieve_relevant_info embedNorm knowledge_base query 5).isEmpty with
    | true =>
      refine ⟨fun _ => ?_, fun hgen => ?_, fun completion hc _ _ hgen => ?_⟩
      · simpa [process_query, hg, he] using hnf
      · simp [process_query, hg, he] at hgen
      · simp [process_query, hg, he] at hgen
    | false =>
      refine ⟨fun hgen => ?_, fun _ => ?_, fun completion hc hcc hlt _ => ?_⟩
      · simp [process_query, hg, he] at hgen
      · simp [process_query, hg, he]
      · subst hc
        simp [process_query, hg, he, generate_response, hcc, hlt]

/-- Witness for C8 (amended): a greeting answer is non-empty, and with a
one-entry corpus and a successful in-quota primary call the answer is the
completion itself. -/
theorem C8_nonempty_amended_witness :
    (process_query (fun _ => []) [] ⟨false, 0, 0⟩ .failure "" "привет").output ≠ ""
    ∧ (process_query (fun _ => []) [⟨"1", "информация о программе", "ai", "info"⟩]
        ⟨true, 0, 100000⟩ (.success "Ответ по программе.") "" "вопрос").output
        = "Ответ по программе." :=
  ⟨(C8_nonempty_amended (fun _ => []) [] ⟨false, 0, 0⟩ .failure "" "привет").1 (by decide),
   (C8_nonempty_amended (fun _ => []) [⟨"1", "информация о программе", "ai", "info"⟩]
      ⟨true, 0, 100000⟩ (.success "Ответ по программе.") "" "вопрос").2.2
      "Ответ по программе." rfl rfl (by decide) (by decide)⟩

/-- C9: both scoring functions are total over partial profiles — a factor
key absent from the dictionary reads as false — so the empty profile
scores 0 for both programs and gets the tie outcome, and both
`recommend_program` and `get_disciplines_recommendation` treat the empty
profile exactly like the all-false profile. -/
theorem C9_partial_profiles :
    (∀ (background : UserBackground) (key : String),
        (∀ p ∈ background, p.1 ≠ key) → dictGet background key = false)
    ∧ ai_score [] = 0
    ∧ ai_product_score [] = 0
    ∧ recommend_program [] = tieRecommendationText
    ∧ recommend_program [] = recommend_program (profileDict false false false false false)
    ∧ (∀ program : String,
        get_disciplines_recommendation program []
          = get_disciplines_recommendation program (profileDict false false false false false)) := by
  refine ⟨?_, rfl, rfl, (recommend_program_cases []).2.2 rfl, rfl, ?_⟩
  · intro background key h
    unfold dictGet
    rw [List.find?_eq_none.mpr (fun x hx => by
      simp only [beq_iff_eq]
      exact h x hx)]
  · intro program
    cases h : (program == "ai") <;> simp [get_disciplines_recommendation, h] <;> rfl

/-- Witness for C9: a key that is not among the bindings reads as false,
and the empty profile gets the AI-program disciplines of the all-false
profile. -/
theorem C9_partial_profiles_witness :
    dictGet [("другой_ключ", true)] "ml_knowledge" = false
    ∧ get_disciplines_recommendation "ai" []
        = get_disciplines_recommendation "ai" (profileDict false false false false false) :=
  ⟨C9_partial_profiles.1 [("другой_ключ", true)] "ml_knowledge" (by decide),
   C9_partial_profiles.2.2.2.2.2 "ai"⟩

/-- Taking the length of the left operand out of an append returns it. -/
lemma take_data_append (s t : String) :
    ((s ++ t).data).take s.data.length = s.data := by
  show (s.data ++ t.data).take s.data.length = s.data
  exact List.take_left _ _

/-- C10: `get_disciplines_recommendation` never rejects its program
argument — every value other than the exact string "ai" takes the
`ai_product` branch, returning the program-B recommendation block (the
same string the literal "ai_product" argument gets, starting with the
program-B header). -/
theorem C10_invalid_program (program : String) (background : UserBackground)
    (h : program ≠ "ai") :
    get_disciplines_recommendation program background
      = get_disciplines_recommendation "ai_product" background
    ∧ (get_disciplines_recommendation program background).data.take
          ("**Рекомендуемые дисциплины по выбору для программы \x27Управление ИИ-продуктами\x27:**\n\n").data.length
        = ("**Рекомендуемые дисциплины по выбору для программы \x27Управление ИИ-продуктами\x27:**\n\n").data := by
  have hb : (program == "ai") = false := beq_eq_false_iff_ne.mpr h
  have heq : get_disciplines_recommendation program background
      = get_disciplines_recommendation "ai_product" background := by
    unfold get_disciplines_recommendation
    rw [hb]
    rfl
  refine ⟨heq, ?_⟩
  rw [heq]
  simp only [get_disciplines_recommendation]
  rw [if_neg (show ¬((("ai_product" : String) == "ai") = true) by decide)]
  simp only [String.append_assoc]
  exact take_data_append _ _

/-- Witness for C10: a misspelled program value falls through to the
`ai_product` recommendation block. -/
theorem C10_invalid_program_witness :
    get_disciplines_recommendation "ai_prodcut" []
      = get_disciplines_recommendation "ai_product" [] :=
  (C10_invalid_program "ai_prodcut" [] (by decide)).1
